import Mathlib

/-!
Verification of the flashcard backend (FastAPI + SQLAlchemy) against its
natural-language specification.  The served application is `app/main.py`
(category, card, pagination, search and delete handlers) together with
`app/routers/users.py` (user creation) and the ORM model `app/models.py`.

The relational store is embedded shallowly: a `DB` value holds the three
tables as lists plus the auto-increment counters, and each HTTP handler
becomes a Lean function from a `DB` (and the validated request parameters)
to a response value paired with the successor `DB`.  Errors raised through
`HTTPException(status_code, detail)` become an `Except HErr` result whose
`DB` component is the state after rollback.

`app/database.py` (engine and session construction) is not part of the
sources; whether the store actually enforces the `NOT NULL` constraint that
`models.py` declares on `Card.user_id` is decided there, so card insertion
is parametrised by an `enforce` flag (see `create_card`).
-/

/-- Row of the `users` table (`models.py`: id primary key, unique email). -/
structure User where
  id : Nat
  email : String
deriving Repr, DecidableEq

/-- Row of the `categories` table (`models.py`: id primary key, unique name,
nullable `user_id` foreign key). -/
structure Category where
  id : Nat
  name : String
  user_id : Option Nat
deriving Repr, DecidableEq

/-- Row of the `cards` table (`models.py`: id primary key, `category_id`
and `user_id` foreign keys, the latter declared `nullable=False`; a row
built without a user carries `none` here). -/
structure Card where
  id : Nat
  front : String
  back : String
  category_id : Nat
  user_id : Option Nat
deriving Repr, DecidableEq

/-- The relational store: the three tables plus the auto-increment
counters used for primary-key assignment on insert. -/
structure DB where
  users : List User
  categories : List Category
  cards : List Card
  nextUserId : Nat
  nextCategoryId : Nat
  nextCardId : Nat
deriving Repr, DecidableEq

/-- An error surfaced as `HTTPException(status_code, detail)`. -/
structure HErr where
  status : Nat
  detail : String
deriving Repr, DecidableEq

/-- `routers/users.py` `create_user`: look the email up first; if a row
exists return it unchanged, otherwise insert a fresh row and return it. -/
def create_user (db : DB) (email : String) : User × DB :=
  match db.users.find? (fun u => u.email == email) with
  | some u => (u, db)
  | none =>
    let u : User := { id := db.nextUserId, email := email }
    (u, { db with users := db.users ++ [u], nextUserId := db.nextUserId + 1 })

/-- C1: calling `create_user` twice with one email returns the same record
both times, the second call changes nothing, and across the two calls the
stored user count grows by at most one. -/
theorem create_user_idempotent (db : DB) (email : String) :
    (create_user (create_user db email).2 email).1 = (create_user db email).1 ∧
    (create_user (create_user db email).2 email).1.id = (create_user db email).1.id ∧
    (create_user (create_user db email).2 email).2 = (create_user db email).2 ∧
    (create_user db email).2.users.length ≤ db.users.length + 1 ∧
    (create_user (create_user db email).2 email).2.users.length ≤ db.users.length + 1 := by
  unfold create_user
  rcases hfind : db.users.find? (fun u => u.email == email) with _ | u
  · have hnew : (List.find? (fun u => u.email == email)
        (db.users ++ [{ id := db.nextUserId, email := email }]) : Option User)
        = some { id := db.nextUserId, email := email } := by
      rw [List.find?_append, hfind]
      simp
    simp [hfind, hnew]
  · simp [hfind]

/-- `main.py` `create_category`: build a row from the request body and try
to insert it.  The `unique=True` constraint on `Category.name` makes the
commit fail on a duplicate name; the handler's `except` branch then rolls
the transaction back (the returned store is the pre-call one) and raises
status 400 with detail "Category creation failed". -/
def create_category (db : DB) (name : String) : Except HErr Category × DB :=
  if db.categories.any (fun k => k.name == name) then
    (Except.error { status := 400, detail := "Category creation failed" }, db)
  else
    let k : Category := { id := db.nextCategoryId, name := name, user_id := none }
    (Except.ok k,
      { db with categories := db.categories ++ [k],
                nextCategoryId := db.nextCategoryId + 1 })

/-- C2: when a category with the requested name already exists, the insert
fails with the 400 "Category creation failed" error, the transaction is
rolled back (the resulting store is exactly the pre-call store), and in
particular the category count is unchanged. -/
theorem create_category_duplicate_fails (db : DB) (name : String)
    (h : ∃ k ∈ db.categories, k.name = name) :
    (create_category db name).1
        = Except.error { status := 400, detail := "Category creation failed" } ∧
    (create_category db name).2 = db ∧
    (create_category db name).2.categories.length = db.categories.length := by
  obtain ⟨k, hk, hname⟩ := h
  have hany : db.categories.any (fun k => k.name == name) = true := by
    exact List.any_eq_true.2 ⟨k, hk, by simp [hname]⟩
  unfold create_category
  rw [hany]
  simp

/-- Concrete run of `create_category_duplicate_fails`: a store already
holding a category named "Spanish" rejects a second "Spanish". -/
theorem create_category_duplicate_fails_witness :
    ((⟨1, "Spanish", none⟩ : Category) ∈
        (⟨[], [⟨1, "Spanish", none⟩], [], 1, 2, 1⟩ : DB).categories ∧
      (⟨1, "Spanish", none⟩ : Category).name = "Spanish") ∧
    (create_category ⟨[], [⟨1, "Spanish", none⟩], [], 1, 2, 1⟩ "Spanish").1
        = Except.error { status := 400, detail := "Category creation failed" } ∧
    (create_category ⟨[], [⟨1, "Spanish", none⟩], [], 1, 2, 1⟩ "Spanish").2
        = ⟨[], [⟨1, "Spanish", none⟩], [], 1, 2, 1⟩ ∧
    (create_category ⟨[], [⟨1, "Spanish", none⟩], [], 1, 2, 1⟩ "Spanish").2.categories.length
        = (⟨[], [⟨1, "Spanish", none⟩], [], 1, 2, 1⟩ : DB).categories.length := by
  refine ⟨⟨by decide, rfl⟩, ?_⟩
  exact create_category_duplicate_fails ⟨[], [⟨1, "Spanish", none⟩], [], 1, 2, 1⟩ "Spanish"
    ⟨⟨1, "Spanish", none⟩, by decide, rfl⟩

/-- `main.py` `delete_info` (DELETE /cards/{card_id}): query the card by
id; if absent raise status 400 with detail "algo paso", otherwise delete
every row with that id and commit. -/
def delete_info (db : DB) (card_id : Nat) : Except HErr Unit × DB :=
  match db.cards.find? (fun c => c.id == card_id) with
  | none => (Except.error { status := 400, detail := "algo paso" }, db)
  | some _ =>
    (Except.ok (), { db with cards := db.cards.filter (fun c => !(c.id == card_id)) })

/-- `main.py` `delete_category` (DELETE /categories/{category_id}): query
the category by id; if absent raise status 400 with detail "algo paso",
otherwise delete every row with that id and commit.  Dependent cards are
neither checked nor removed. -/
def delete_category (db : DB) (category_id : Nat) : Except HErr Unit × DB :=
  match db.categories.find? (fun k => k.id == category_id) with
  | none => (Except.error { status := 400, detail := "algo paso" }, db)
  | some _ =>
    (Except.ok (),
      { db with categories := db.categories.filter (fun k => !(k.id == category_id)) })

/-- `main.py` `get_cards` (GET /all): `db.query(Card).join(Category).all()`,
an inner join of the cards table with the categories table on
`cards.category_id = categories.id`, returning the card side of each
matching pair. -/
def get_cards (db : DB) : List Card :=
  (db.cards.map (fun c =>
    (db.categories.filter (fun k => k.id == c.category_id)).map (fun _ => c))).flatten

/-- C6: deleting a card fails (status 400, detail "algo paso" — the
not-found failure of this endpoint, per the API table's "400 if not
found") exactly when no stored card has the id, and the store is then
unchanged; after a successful delete the id lookup the handler performs
finds nothing, and a second delete of the same id fails with the same
not-found error instead of succeeding idempotently. -/
theorem delete_info_not_found_semantics (db : DB) (card_id : Nat) :
    ((∀ c ∈ db.cards, c.id ≠ card_id) →
      delete_info db card_id
        = (Except.error { status := 400, detail := "algo paso" }, db)) ∧
    ((∃ c ∈ db.cards, c.id = card_id) →
      (delete_info db card_id).1 = Except.ok () ∧
      (delete_info db card_id).2.cards.find? (fun c => c.id == card_id) = none ∧
      delete_info (delete_info db card_id).2 card_id
        = (Except.error { status := 400, detail := "algo paso" },
            (delete_info db card_id).2)) := by
  constructor
  · intro habs
    have hfind : db.cards.find? (fun c => c.id == card_id) = none := by
      exact List.find?_eq_none.2 (fun c hc => by simp [habs c hc])
    unfold delete_info
    rw [hfind]
  · intro ⟨c, hc, hid⟩
    have hsome : (db.cards.find? (fun c => c.id == card_id)).isSome = true := by
      exact List.find?_isSome.2 ⟨c, hc, by simp [hid]⟩
    obtain ⟨c₀, hfind⟩ := Option.isSome_iff_exists.1 hsome
    have hgone : (db.cards.filter (fun c => !(c.id == card_id))).find?
        (fun c => c.id == card_id) = none := by
      refine List.find?_eq_none.2 (fun x hx => ?_)
      have := (List.mem_filter.1 hx).2
      simpa using this
    constructor
    · unfold delete_info
      rw [hfind]
    · constructor
      · unfold delete_info
        rw [hfind]
        exact hgone
      · have hd : delete_info db card_id = (Except.ok (),
            { db with cards := db.cards.filter (fun c => !(c.id == card_id)) }) := by
          unfold delete_info
          rw [hfind]
        rw [hd]
        unfold delete_info
        simp only [hgone]

/-- Concrete runs of `delete_info_not_found_semantics`, one for a store
without the card (id 7 absent) and one with it (id 1 present). -/
theorem delete_info_not_found_semantics_witness :
    ((∀ c ∈ (⟨[], [], [⟨1, "hola", "hello", 1, none⟩], 1, 1, 2⟩ : DB).cards, c.id ≠ 7) ∧
      delete_info ⟨[], [], [⟨1, "hola", "hello", 1, none⟩], 1, 1, 2⟩ 7
        = (Except.error { status := 400, detail := "algo paso" },
            ⟨[], [], [⟨1, "hola", "hello", 1, none⟩], 1, 1, 2⟩)) ∧
    ((∃ c ∈ (⟨[], [], [⟨1, "hola", "hello", 1, none⟩], 1, 1, 2⟩ : DB).cards, c.id = 1) ∧
      (delete_info ⟨[], [], [⟨1, "hola", "hello", 1, none⟩], 1, 1, 2⟩ 1).1 = Except.ok () ∧
      (delete_info ⟨[], [], [⟨1, "hola", "hello", 1, none⟩], 1, 1, 2⟩ 1).2.cards.find?
          (fun c => c.id == 1) = none ∧
      delete_info (delete_info ⟨[], [], [⟨1, "hola", "hello", 1, none⟩], 1, 1, 2⟩ 1).2 1
        = (Except.error { status := 400, detail := "algo paso" },
            (delete_info ⟨[], [], [⟨1, "hola", "hello", 1, none⟩], 1, 1, 2⟩ 1).2)) := by
  constructor
  · exact ⟨by decide,
      (delete_info_not_found_semantics ⟨[], [], [⟨1, "hola", "hello", 1, none⟩], 1, 1, 2⟩ 7).1
        (by decide)⟩
  · exact ⟨⟨⟨1, "hola", "hello", 1, none⟩, by decide, rfl⟩,
      (delete_info_not_found_semantics ⟨[], [], [⟨1, "hola", "hello", 1, none⟩], 1, 1, 2⟩ 1).2
        ⟨⟨1, "hola", "hello", 1, none⟩, by decide, rfl⟩⟩

/-- Insert a card into a list kept sorted by descending id (helper for
modelling the SQL `ORDER BY cards.id DESC`). -/
def insertDesc (c : Card) : List Card → List Card
  | [] => [c]
  | d :: ds => if d.id ≤ c.id then c :: d :: ds else d :: insertDesc c ds

/-- Sort a card list by descending id, modelling `ORDER BY cards.id DESC`. -/
def sortDescId : List Card → List Card
  | [] => []
  | c :: cs => insertDesc c (sortDescId cs)

theorem insertDesc_perm (c : Card) (l : List Card) :
    List.Perm (insertDesc c l) (c :: l) := by
  induction l with
  | nil => simp [insertDesc]
  | cons d ds ih =>
    unfold insertDesc
    by_cases h : d.id ≤ c.id
    · rw [if_pos h]
    · rw [if_neg h]
      exact (List.Perm.cons d ih).trans (List.Perm.swap c d ds)

theorem sortDescId_perm (l : List Card) : List.Perm (sortDescId l) l := by
  induction l with
  | nil => simp [sortDescId]
  | cons c cs ih =>
    unfold sortDescId
    exact ((insertDesc_perm c (sortDescId cs)).trans (List.Perm.cons c ih))

theorem insertDesc_sorted (c : Card) (l : List Card)
    (h : l.Pairwise (fun a b => b.id ≤ a.id)) :
    (insertDesc c l).Pairwise (fun a b => b.id ≤ a.id) := by
  induction l with
  | nil => simp [insertDesc]
  | cons d ds ih =>
    rcases List.pairwise_cons.1 h with ⟨hd, hds⟩
    unfold insertDesc
    by_cases hle : d.id ≤ c.id
    · rw [if_pos hle]
      refine List.pairwise_cons.2 ⟨?_, h⟩
      intro x hx
      rcases List.mem_cons.1 hx with hx' | hx'
      · subst hx'
        exact hle
      · exact le_trans (hd x hx') hle
    · rw [if_neg hle]
      refine List.pairwise_cons.2 ⟨?_, ih hds⟩
      intro x hx
      have hmem := (insertDesc_perm c ds).mem_iff.1 hx
      rcases List.mem_cons.1 hmem with hx' | hx'
      · subst hx'
        exact Nat.le_of_not_le hle
      · exact hd x hx'

theorem sortDescId_sorted (l : List Card) :
    (sortDescId l).Pairwise (fun a b => b.id ≤ a.id) := by
  induction l with
  | nil => simp [sortDescId]
  | cons c cs ih => exact insertDesc_sorted c (sortDescId cs) ih

/-- Response shape of GET /cards (`main.py` `get_paginated_cards`). -/
structure PaginatedCards where
  cards : List Card
  total_count : Nat
  current_page : Nat
  category_id : Nat
deriving Repr, DecidableEq

/-- `main.py` `get_paginated_cards` (GET /cards): offset = page * page_size;
the page is the card table ordered by descending id with `offset` rows
skipped and at most `page_size` rows taken; `total_count` is the size of
the whole card table; `category_id` is the constant 0.  FastAPI's query
validation guarantees page ≥ 0 and 1 ≤ page_size ≤ 100 before the handler
runs. -/
def get_paginated_cards (db : DB) (page page_size : Nat) : PaginatedCards :=
  { cards := ((sortDescId db.cards).drop (page * page_size)).take page_size
    total_count := db.cards.length
    current_page := page
    category_id := 0 }

/-- C4: for page ≥ 0 and page_size in [1,100], GET /cards returns the
stored cards sorted by descending id with the first page*page_size of them
skipped, at most page_size of them, a total_count equal to the full card
count whatever the page, and an empty page (not an error) past the end. -/
theorem get_paginated_cards_correct (db : DB) (page page_size : Nat)
    (h1 : 1 ≤ page_size) (h2 : page_size ≤ 100) :
    ∃ sorted : List Card,
      List.Perm sorted db.cards ∧
      sorted.Pairwise (fun a b => b.id ≤ a.id) ∧
      (get_paginated_cards db page page_size).cards
          = (sorted.drop (page * page_size)).take page_size ∧
      (get_paginated_cards db page page_size).cards.length ≤ page_size ∧
      (get_paginated_cards db page page_size).total_count = db.cards.length ∧
      (db.cards.length ≤ page * page_size →
        (get_paginated_cards db page page_size).cards = []) := by
  refine ⟨sortDescId db.cards, sortDescId_perm db.cards, sortDescId_sorted db.cards,
    rfl, ?_, rfl, ?_⟩
  · simpa [get_paginated_cards] using
      min_le_left page_size (((sortDescId db.cards).drop (page * page_size)).length)
  · intro hpast
    have hlen : (sortDescId db.cards).length = db.cards.length :=
      (sortDescId_perm db.cards).length_eq
    have hnil : (sortDescId db.cards).drop (page * page_size) = [] :=
      List.drop_eq_nil_of_le (by rw [hlen]; exact hpast)
    simp [get_paginated_cards, hnil]

/-- Concrete run of `get_paginated_cards_correct`: a two-card store paged
with page 3, page_size 10 (past the end). -/
theorem get_paginated_cards_correct_witness :
    (1 ≤ 10 ∧ 10 ≤ 100) ∧
    (∃ sorted : List Card,
      List.Perm sorted
          (⟨[], [], [⟨1, "a", "b", 1, none⟩, ⟨2, "c", "d", 1, none⟩], 1, 1, 3⟩ : DB).cards ∧
      sorted.Pairwise (fun a b => b.id ≤ a.id) ∧
      (get_paginated_cards ⟨[], [], [⟨1, "a", "b", 1, none⟩, ⟨2, "c", "d", 1, none⟩], 1, 1, 3⟩
          3 10).cards = (sorted.drop (3 * 10)).take 10 ∧
      (get_paginated_cards ⟨[], [], [⟨1, "a", "b", 1, none⟩, ⟨2, "c", "d", 1, none⟩], 1, 1, 3⟩
          3 10).cards.length ≤ 10 ∧
      (get_paginated_cards ⟨[], [], [⟨1, "a", "b", 1, none⟩, ⟨2, "c", "d", 1, none⟩], 1, 1, 3⟩
          3 10).total_count
        = (⟨[], [], [⟨1, "a", "b", 1, none⟩, ⟨2, "c", "d", 1, none⟩], 1, 1, 3⟩ : DB).cards.length ∧
      ((⟨[], [], [⟨1, "a", "b", 1, none⟩, ⟨2, "c", "d", 1, none⟩], 1, 1, 3⟩ : DB).cards.length
          ≤ 3 * 10 →
        (get_paginated_cards ⟨[], [], [⟨1, "a", "b", 1, none⟩, ⟨2, "c", "d", 1, none⟩], 1, 1, 3⟩
          3 10).cards = [])) := by
  exact ⟨⟨by decide, by decide⟩,
    get_paginated_cards_correct
      ⟨[], [], [⟨1, "a", "b", 1, none⟩, ⟨2, "c", "d", 1, none⟩], 1, 1, 3⟩ 3 10
      (by decide) (by decide)⟩

/-- The row `main.py` `create_card` constructs:
`models.Card(front=.., back=.., category_id=..)` — no `user_id` is passed,
so the ORM leaves it NULL even though `models.py` declares the column
`nullable=False`. -/
def newCardRow (db : DB) (front back : String) (category_id : Nat) : Card :=
  { id := db.nextCardId, front := front, back := back,
    category_id := category_id, user_id := none }

/-- `main.py` `create_card` (POST /cards): first query the category by id
and raise 404 "Category not found" if absent; then build `newCardRow` and
try to insert it.  Whether the commit trips over the `NOT NULL` constraint
on `cards.user_id` that `models.py` declares is decided by the engine and
the pre-existing table schema, both configured in `app/database.py`, which
is not part of the sources; the flag `enforce` selects between the two
store behaviours.  An insert error is caught, the transaction rolled back,
and 400 "Card creation failed" raised. -/
def create_card (enforce : Bool) (db : DB) (front back : String)
    (category_id : Nat) : Except HErr Card × DB :=
  match db.categories.find? (fun k => k.id == category_id) with
  | none => (Except.error { status := 404, detail := "Category not found" }, db)
  | some _ =>
    let card := newCardRow db front back category_id
    if enforce && card.user_id.isNone then
      (Except.error { status := 400, detail := "Card creation failed" }, db)
    else
      (Except.ok card,
        { db with cards := db.cards ++ [card], nextCardId := db.nextCardId + 1 })

/-- Number of cards in a list whose front, back and category_id all equal
the given values. -/
def countMatching (l : List Card) (front back : String) (category_id : Nat) : Nat :=
  (l.filter (fun c =>
    c.front == front && c.back == back && c.category_id == category_id)).length

/-- C10: the card row built by `create_card` carries no user value even
though the model declares `user_id NOT NULL`; consequently, under a store
that enforces that constraint, every insert attempt (for any input whose
category exists) takes the rollback-and-400 branch and leaves the store
untouched. -/
theorem create_card_violates_user_invariant (db : DB) (front back : String)
    (category_id : Nat) (h : ∃ k ∈ db.categories, k.id = category_id) :
    (newCardRow db front back category_id).user_id = none ∧
    create_card true db front back category_id
      = (Except.error { status := 400, detail := "Card creation failed" }, db) := by
  refine ⟨rfl, ?_⟩
  have hsome : (db.categories.find? (fun k => k.id == category_id)).isSome = true := by
    obtain ⟨k, hk, hid⟩ := h
    exact List.find?_isSome.2 ⟨k, hk, by simp [hid]⟩
  obtain ⟨k₀, hfind⟩ := Option.isSome_iff_exists.1 hsome
  unfold create_card
  rw [hfind]
  simp [newCardRow]

/-- Concrete run of `create_card_violates_user_invariant`: with category 1
present and enforcement on, creating ("hola","hello",1) fails with 400. -/
theorem create_card_violates_user_invariant_witness :
    (∃ k ∈ (⟨[], [⟨1, "Spanish", none⟩], [], 1, 2, 1⟩ : DB).categories, k.id = 1) ∧
    (newCardRow ⟨[], [⟨1, "Spanish", none⟩], [], 1, 2, 1⟩ "hola" "hello" 1).user_id = none ∧
    create_card true ⟨[], [⟨1, "Spanish", none⟩], [], 1, 2, 1⟩ "hola" "hello" 1
      = (Except.error { status := 400, detail := "Card creation failed" },
          ⟨[], [⟨1, "Spanish", none⟩], [], 1, 2, 1⟩) := by
  exact ⟨⟨⟨1, "Spanish", none⟩, by decide, rfl⟩,
    create_card_violates_user_invariant ⟨[], [⟨1, "Spanish", none⟩], [], 1, 2, 1⟩
      "hola" "hello" 1 ⟨⟨1, "Spanish", none⟩, by decide, rfl⟩⟩

theorem get_cards_append_card (db : DB) (c : Card) (n : Nat) :
    get_cards { db with cards := db.cards ++ [c], nextCardId := n }
      = get_cards db
        ++ (db.categories.filter (fun k => k.id == c.category_id)).map (fun _ => c) := by
  unfold get_cards
  simp

theorem countMatching_append (l₁ l₂ : List Card) (front back : String) (cid : Nat) :
    countMatching (l₁ ++ l₂) front back cid
      = countMatching l₁ front back cid + countMatching l₂ front back cid := by
  unfold countMatching
  rw [List.filter_append, List.length_append]

/-- C3 counterexample: against a store that already holds a card with
front "a", back "b" and category 1, creating another ("a","b",1) card and
listing /all yields two matching cards, not exactly one — the claim as
stated omits the precondition that no equal card is already stored. -/
theorem create_card_exactly_once_counterexample :
    ("a" : String) ≠ "" ∧ ("b" : String) ≠ "" ∧
    (∃ k ∈ (⟨[], [⟨1, "Spanish", none⟩], [⟨5, "a", "b", 1, none⟩], 1, 2, 6⟩ : DB).categories,
      k.id = 1) ∧
    (create_card false ⟨[], [⟨1, "Spanish", none⟩], [⟨5, "a", "b", 1, none⟩], 1, 2, 6⟩
        "a" "b" 1).1 = Except.ok ⟨6, "a", "b", 1, none⟩ ∧
    countMatching
      (get_cards (create_card false ⟨[], [⟨1, "Spanish", none⟩], [⟨5, "a", "b", 1, none⟩], 1, 2, 6⟩
        "a" "b" 1).2) "a" "b" 1 = 2 := by
  refine ⟨by decide, by decide, ⟨⟨1, "Spanish", none⟩, by decide, rfl⟩, rfl, by decide⟩

/-- C3 (amended): with a category uniquely carrying the requested id and a
store that does not reject the missing user value, `create_card` succeeds
returning a card with exactly the requested front, back and category_id,
and the number of cards with those three fields that GET /all returns
grows by exactly one — in particular it is exactly one when no stored card
matched before the call. -/
theorem create_card_then_get_cards (db : DB) (front back : String) (cid : Nat)
    (hcat : (db.categories.filter (fun k => k.id == cid)).length = 1)
    (hf : front ≠ "") (hb : back ≠ "") :
    (create_card false db front back cid).1 = Except.ok (newCardRow db front back cid) ∧
    (newCardRow db front back cid).front = front ∧
    (newCardRow db front back cid).back = back ∧
    (newCardRow db front back cid).category_id = cid ∧
    countMatching (get_cards (create_card false db front back cid).2) front back cid
      = countMatching (get_cards db) front back cid + 1 ∧
    (countMatching (get_cards db) front back cid = 0 →
      countMatching (get_cards (create_card false db front back cid).2) front back cid = 1) := by
  have hne : db.categories.filter (fun k => k.id == cid) ≠ [] := by
    intro hemp
    rw [hemp] at hcat
    simp at hcat
  obtain ⟨k, hkmem⟩ := List.exists_mem_of_ne_nil _ hne
  have hk := List.mem_filter.1 hkmem
  have hsome : (db.categories.find? (fun k => k.id == cid)).isSome = true :=
    List.find?_isSome.2 ⟨k, hk.1, hk.2⟩
  obtain ⟨k₀, hfind⟩ := Option.isSome_iff_exists.1 hsome
  have hstep : create_card false db front back cid
      = (Except.ok (newCardRow db front back cid),
        { db with cards := db.cards ++ [newCardRow db front back cid],
                  nextCardId := db.nextCardId + 1 }) := by
    unfold create_card
    rw [hfind]
    simp
  have hjoin : get_cards (create_card false db front back cid).2
      = get_cards db
        ++ (db.categories.filter (fun k => k.id == cid)).map
            (fun _ => newCardRow db front back cid) := by
    rw [hstep]
    exact get_cards_append_card db (newCardRow db front back cid) (db.nextCardId + 1)
  have hones : countMatching
      ((db.categories.filter (fun k => k.id == cid)).map
        (fun _ => newCardRow db front back cid)) front back cid = 1 := by
    unfold countMatching
    rw [List.filter_map]
    have : ((fun c => c.front == front && c.back == back && c.category_id == cid) ∘
        (fun _ : Category => newCardRow db front back cid))
        = (fun _ : Category => true) := by
      funext x
      simp [newCardRow]
    rw [this]
    simp [hcat]
  have hcount : countMatching (get_cards (create_card false db front back cid).2) front back cid
      = countMatching (get_cards db) front back cid + 1 := by
    rw [hjoin, countMatching_append, hones]
  exact ⟨by rw [hstep], rfl, rfl, rfl, hcount, fun h0 => by rw [hcount, h0]⟩

/-- Concrete run of `create_card_then_get_cards`: a fresh store with one
category and no cards; creating ("hola","hello",1) yields one match. -/
theorem create_card_then_get_cards_witness :
    (((⟨[], [⟨1, "Spanish", none⟩], [], 1, 2, 1⟩ : DB).categories.filter
        (fun k => k.id == 1)).length = 1 ∧ ("hola" : String) ≠ "" ∧ ("hello" : String) ≠ "") ∧
    (create_card false ⟨[], [⟨1, "Spanish", none⟩], [], 1, 2, 1⟩ "hola" "hello" 1).1
      = Except.ok (newCardRow ⟨[], [⟨1, "Spanish", none⟩], [], 1, 2, 1⟩ "hola" "hello" 1) ∧
    countMatching
      (get_cards (create_card false ⟨[], [⟨1, "Spanish", none⟩], [], 1, 2, 1⟩
        "hola" "hello" 1).2) "hola" "hello" 1
      = countMatching (get_cards ⟨[], [⟨1, "Spanish", none⟩], [], 1, 2, 1⟩) "hola" "hello" 1
          + 1 := by
  refine ⟨⟨by decide, by decide, by decide⟩, ?_, ?_⟩
  · exact (create_card_then_get_cards ⟨[], [⟨1, "Spanish", none⟩], [], 1, 2, 1⟩
      "hola" "hello" 1 (by decide) (by decide) (by decide)).1
  · exact (create_card_then_get_cards ⟨[], [⟨1, "Spanish", none⟩], [], 1, 2, 1⟩
      "hola" "hello" 1 (by decide) (by decide) (by decide)).2.2.2.2.1

theorem mem_get_cards (db : DB) (c : Card) :
    c ∈ get_cards db ↔ c ∈ db.cards ∧ ∃ k ∈ db.categories, k.id = c.category_id := by
  unfold get_cards
  simp only [List.mem_flatten, List.mem_map, List.mem_filter]
  constructor
  · rintro ⟨l, ⟨x, hx, rfl⟩, hcl⟩
    obtain ⟨k, hk, rfl⟩ := List.mem_map.1 hcl
    have hk' := List.mem_filter.1 hk
    exact ⟨hx, k, hk'.1, by simpa using hk'.2⟩
  · rintro ⟨hc, k, hk, hid⟩
    refine ⟨(db.categories.filter (fun k => k.id == c.category_id)).map (fun _ => c),
      ⟨c, hc, rfl⟩, ?_⟩
    exact List.mem_map.2 ⟨k, List.mem_filter.2 ⟨hk, by simp [hid]⟩, rfl⟩

/-- C7 counterexample: delete category 1 out from under its card; the card
is still stored, but GET /all — an inner join with the categories table —
no longer returns it, so "GET /all still returns the orphaned Card" fails. -/
theorem delete_category_get_all_counterexample :
    (delete_category ⟨[], [⟨1, "Spanish", none⟩], [⟨1, "hola", "hello", 1, none⟩], 1, 2, 2⟩ 1).1
      = Except.ok () ∧
    (⟨1, "hola", "hello", 1, none⟩ : Card) ∈
      (delete_category ⟨[], [⟨1, "Spanish", none⟩], [⟨1, "hola", "hello", 1, none⟩], 1, 2, 2⟩
        1).2.cards ∧
    get_cards
      (delete_category ⟨[], [⟨1, "Spanish", none⟩], [⟨1, "hola", "hello", 1, none⟩], 1, 2, 2⟩
        1).2 = [] := by
  refine ⟨rfl, by decide, by decide⟩

/-- C7 (amended): a successful category delete leaves every dependent card
stored unchanged (no cascade), but a subsequent GET /all does not return
the orphaned cards: the handler inner-joins cards with categories, so a
card whose category was deleted is filtered out of the listing. -/
theorem delete_category_leaves_orphans (db : DB) (cid : Nat)
    (h : ∃ k ∈ db.categories, k.id = cid) :
    (delete_category db cid).1 = Except.ok () ∧
    (delete_category db cid).2.cards = db.cards ∧
    ∀ c ∈ db.cards, c.category_id = cid → c ∉ get_cards (delete_category db cid).2 := by
  have hsome : (db.categories.find? (fun k => k.id == cid)).isSome = true := by
    obtain ⟨k, hk, hid⟩ := h
    exact List.find?_isSome.2 ⟨k, hk, by simp [hid]⟩
  obtain ⟨k₀, hfind⟩ := Option.isSome_iff_exists.1 hsome
  have hstep : delete_category db cid = (Except.ok (),
      { db with categories := db.categories.filter (fun k => !(k.id == cid)) }) := by
    unfold delete_category
    rw [hfind]
  refine ⟨by rw [hstep], by rw [hstep], ?_⟩
  intro c hc hcid hmem
  rw [hstep] at hmem
  obtain ⟨-, k, hk, hkid⟩ := (mem_get_cards _ c).1 hmem
  have hk' := List.mem_filter.1 hk
  have : k.id ≠ cid := by simpa using hk'.2
  exact this (by rw [hkid, hcid])

/-- Concrete run of `delete_category_leaves_orphans` on a one-category,
one-card store. -/
theorem delete_category_leaves_orphans_witness :
    (∃ k ∈ (⟨[], [⟨2, "French", none⟩], [⟨1, "oui", "yes", 2, none⟩], 1, 3, 2⟩ : DB).categories,
      k.id = 2) ∧
    (delete_category ⟨[], [⟨2, "French", none⟩], [⟨1, "oui", "yes", 2, none⟩], 1, 3, 2⟩ 2).1
      = Except.ok () ∧
    (delete_category ⟨[], [⟨2, "French", none⟩], [⟨1, "oui", "yes", 2, none⟩], 1, 3, 2⟩ 2).2.cards
      = (⟨[], [⟨2, "French", none⟩], [⟨1, "oui", "yes", 2, none⟩], 1, 3, 2⟩ : DB).cards ∧
    ∀ c ∈ (⟨[], [⟨2, "French", none⟩], [⟨1, "oui", "yes", 2, none⟩], 1, 3, 2⟩ : DB).cards,
      c.category_id = 2 →
        c ∉ get_cards
          (delete_category ⟨[], [⟨2, "French", none⟩], [⟨1, "oui", "yes", 2, none⟩], 1, 3, 2⟩
            2).2 := by
  exact ⟨⟨⟨2, "French", none⟩, by decide, rfl⟩,
    delete_category_leaves_orphans ⟨[], [⟨2, "French", none⟩], [⟨1, "oui", "yes", 2, none⟩], 1, 3, 2⟩
      2 ⟨⟨2, "French", none⟩, by decide, rfl⟩⟩

/-- Case-insensitive character comparison, as SQL `ILIKE` compares the
non-wildcard pattern characters. -/
def charEqCI (a b : Char) : Bool := a.toLower == b.toLower

/-- `startsWithCI s q`: the string `s` starts with `q`, compared
case-insensitively. -/
def startsWithCI : List Char → List Char → Bool
  | _, [] => true
  | [], _ :: _ => false
  | c :: s, q0 :: q => charEqCI q0 c && startsWithCI s q

/-- `hasSubCI q s`: the string `s` contains `q` as a case-insensitive
substring (the reading of "contains the query" in the specification). -/
def hasSubCI (q : List Char) : List Char → Bool
  | [] => q.isEmpty
  | c :: s => startsWithCI (c :: s) q || hasSubCI q s

/-- All suffixes of a string, longest first, ending with the empty one. -/
def suffixes : List Char → List (List Char)
  | [] => [[]]
  | c :: s => (c :: s) :: suffixes s

/-- SQL `LIKE` / `ILIKE` pattern matching as the database evaluates the
handler's filter: `%` matches any (possibly empty) character sequence,
`_` matches exactly one character, and every other pattern character
matches case-insensitively.  No escape character is involved: the
handlers interpolate the raw query into the pattern. -/
def likeM : List Char → List Char → Bool
  | [], s => s.isEmpty
  | p :: ps, s =>
    if p == '%' then (suffixes s).any (fun t => likeM ps t)
    else
      match s with
      | [] => false
      | c :: s' => (p == '_' || charEqCI p c) && likeM ps s'

/-- The pattern `f"%{query}%"` the search handlers build. -/
def searchPattern (query : String) : List Char :=
  '%' :: (query.toList ++ ['%'])

/-- The filter of `main.py` / `routers/search.py` `search_cards`:
`Card.front.ilike(search_query) | Card.back.ilike(search_query)`. -/
def cardMatchesLike (query : String) (c : Card) : Bool :=
  likeM (searchPattern query) c.front.toList || likeM (searchPattern query) c.back.toList

/-- The specification's notion of a search hit: front or back contains the
query as a case-insensitive substring. -/
def ciContainsSub (s sub : String) : Bool := hasSubCI sub.toList s.toList

/-- Response shape of GET /search (`search_cards`). -/
structure SearchResult where
  cards : List Card
  total_count : Nat
  current_page : Nat
  search_term : String
deriving Repr, DecidableEq

/-- `main.py` (and `routers/search.py`) `search_cards` (GET /search):
filter the card table by the ILIKE disjunction on front and back, count
the matches, and return the page of matches ordered by descending id with
`page * page_size` skipped and `page_size` taken.  FastAPI's validation
rejects an empty query (min_length=1) with a 422 before the handler runs. -/
def search_cards (db : DB) (query : String) (page page_size : Nat) : SearchResult :=
  let base := db.cards.filter (cardMatchesLike query)
  { cards := ((sortDescId base).drop (page * page_size)).take page_size
    total_count := base.length
    current_page := page
    search_term := query }

/-- C9: the query is interpolated unescaped into the `%query%` LIKE
pattern, so its metacharacters act as wildcards: searching for "a%b"
returns a card reading "axb" / "zz" although neither side contains "a%b"
as a (case-insensitive) substring. -/
theorem search_cards_like_injection :
    ("a%b" : String) ≠ "" ∧
    (search_cards ⟨[], [⟨1, "Spanish", none⟩], [⟨1, "axb", "zz", 1, none⟩], 1, 2, 2⟩
        "a%b" 0 10).cards = [⟨1, "axb", "zz", 1, none⟩] ∧
    ciContainsSub "axb" "a%b" = false ∧
    ciContainsSub "zz" "a%b" = false := by
  exact ⟨by decide, by decide, by decide, by decide⟩

/-- C5 counterexample: with the non-empty query "h_llo", the search
returns the stored card "hxllo" / "back" although neither field contains
"h_llo" as a case-insensitive substring — the underscore matched the "x"
as a single-character wildcard, so the claim fails for queries holding
LIKE metacharacters. -/
theorem search_cards_exact_match_counterexample :
    ("h_llo" : String) ≠ "" ∧
    (search_cards ⟨[], [⟨1, "Greetings", none⟩], [⟨3, "hxllo", "back", 1, none⟩], 1, 2, 4⟩
        "h_llo" 0 10).cards = [⟨3, "hxllo", "back", 1, none⟩] ∧
    ciContainsSub "hxllo" "h_llo" = false ∧
    ciContainsSub "back" "h_llo" = false := by
  exact ⟨by decide, by decide, by decide, by decide⟩

/-- A query character that the LIKE pattern treats literally. -/
def plainChar (c : Char) : Bool := !(c == '%') && !(c == '_')

theorem startsWithCI_nil (s : List Char) : startsWithCI s [] = true := by
  cases s <;> rfl

theorem likeM_percent_only (s : List Char) : likeM ['%'] s = true := by
  induction s with
  | nil => rfl
  | cons c s ih =>
    show likeM ['%'] (c :: s) = true
    unfold likeM
    simp only [if_pos rfl]
    unfold suffixes
    rw [List.any_cons]
    have : (suffixes s).any (fun t => likeM [] t) = true := by
      have h := ih
      unfold likeM at h
      simpa [if_pos rfl] using h
    simp [this]

theorem likeM_plain_append_percent (q : List Char) :
    ∀ s : List Char, q.all plainChar = true →
      likeM (q ++ ['%']) s = startsWithCI s q := by
  induction q with
  | nil =>
    intro s _
    rw [List.nil_append, likeM_percent_only, startsWithCI_nil]
  | cons q0 q' ih =>
    intro s hq
    rw [List.all_cons, Bool.and_eq_true] at hq
    have hq0 : (q0 == '%') = false ∧ (q0 == '_') = false := by
      have := hq.1
      unfold plainChar at this
      rw [Bool.and_eq_true, Bool.not_eq_true', Bool.not_eq_true'] at this
      exact this
    cases s with
    | nil =>
      show likeM (q0 :: (q' ++ ['%'])) [] = startsWithCI [] (q0 :: q')
      unfold likeM
      rw [if_neg (by simp [hq0.1])]
      rfl
    | cons c s' =>
      show likeM (q0 :: (q' ++ ['%'])) (c :: s') = startsWithCI (c :: s') (q0 :: q')
      unfold likeM
      rw [if_neg (by simp [hq0.1])]
      show ((q0 == '_' || charEqCI q0 c) && likeM (q' ++ ['%']) s')
          = startsWithCI (c :: s') (q0 :: q')
      rw [hq0.2, Bool.false_or, ih s' hq.2]
      rfl

theorem suffixes_any_startsWith (q : List Char) (s : List Char) :
    (suffixes s).any (fun t => startsWithCI t q) = hasSubCI q s := by
  induction s with
  | nil =>
    show (suffixes []).any (fun t => startsWithCI t q) = hasSubCI q []
    unfold suffixes hasSubCI
    rw [List.any_cons, List.any_nil]
    cases q <;> simp [startsWithCI, List.isEmpty]
  | cons c s ih =>
    show (suffixes (c :: s)).any (fun t => startsWithCI t q) = hasSubCI q (c :: s)
    unfold suffixes hasSubCI
    rw [List.any_cons, ih]

theorem likeM_searchPattern_eq_hasSub (query : String)
    (hq : query.toList.all plainChar = true) (s : List Char) :
    likeM (searchPattern query) s = hasSubCI query.toList s := by
  unfold searchPattern likeM
  rw [if_pos (beq_self_eq_true '%')]
  have hfun : (fun t => likeM (query.toList ++ ['%']) t)
      = (fun t => startsWithCI t query.toList) :=
    funext (fun t => likeM_plain_append_percent query.toList t hq)
  rw [hfun, suffixes_any_startsWith]

/-- The specification's search predicate on a card: front or back contains
the query as a case-insensitive substring. -/
def cardMatchesSub (query : String) (c : Card) : Bool :=
  ciContainsSub c.front query || ciContainsSub c.back query

theorem cardMatchesLike_eq_sub (query : String)
    (hq : query.toList.all plainChar = true) (c : Card) :
    cardMatchesLike query c = cardMatchesSub query c := by
  unfold cardMatchesLike cardMatchesSub ciContainsSub
  rw [likeM_searchPattern_eq_hasSub query hq, likeM_searchPattern_eq_hasSub query hq]

/-- C5 (amended): for a non-empty query free of the LIKE metacharacters
'%' and '_', GET /search is exactly case-insensitive substring search:
total_count is the number of stored cards whose front or back contains
the query case-insensitively, the returned page is the descending-id
ordering of exactly those matches with page*page_size skipped and
page_size taken (so every match and only matches appear across the
pages), every returned card is a match, and the page is ordered by
descending id. -/
theorem search_cards_plain_query_correct (db : DB) (query : String)
    (page page_size : Nat) (hne : query ≠ "")
    (hplain : query.toList.all plainChar = true) :
    (search_cards db query page page_size).total_count
        = (db.cards.filter (cardMatchesSub query)).length ∧
    (search_cards db query page page_size).cards
        = ((sortDescId (db.cards.filter (cardMatchesSub query))).drop
            (page * page_size)).take page_size ∧
    (∀ c ∈ (search_cards db query page page_size).cards, cardMatchesSub query c = true) ∧
    (∀ c ∈ db.cards, cardMatchesSub query c = true →
        c ∈ sortDescId (db.cards.filter (cardMatchesSub query))) ∧
    (search_cards db query page page_size).cards.Pairwise (fun a b => b.id ≤ a.id) := by
  have hfilter : db.cards.filter (cardMatchesLike query)
      = db.cards.filter (cardMatchesSub query) :=
    List.filter_congr (fun c _ => cardMatchesLike_eq_sub query hplain c)
  have hcards : (search_cards db query page page_size).cards
      = ((sortDescId (db.cards.filter (cardMatchesSub query))).drop
          (page * page_size)).take page_size := by
    unfold search_cards
    rw [hfilter]
  refine ⟨by unfold search_cards; rw [hfilter], hcards, ?_, ?_, ?_⟩
  · intro c hc
    rw [hcards] at hc
    have h1 : c ∈ sortDescId (db.cards.filter (cardMatchesSub query)) :=
      List.mem_of_mem_drop (List.mem_of_mem_take hc)
    have h2 : c ∈ db.cards.filter (cardMatchesSub query) :=
      (sortDescId_perm _).mem_iff.1 h1
    exact (List.mem_filter.1 h2).2
  · intro c hc hmatch
    exact (sortDescId_perm _).mem_iff.2 (List.mem_filter.2 ⟨hc, hmatch⟩)
  · rw [hcards]
    have hsub : (((sortDescId (db.cards.filter (cardMatchesSub query))).drop
        (page * page_size)).take page_size).Sublist
          (sortDescId (db.cards.filter (cardMatchesSub query))) :=
      (List.take_sublist _ _).trans (List.drop_sublist _ _)
    exact (sortDescId_sorted _).sublist hsub

/-- Concrete run of `search_cards_plain_query_correct`: query "cat"
against a store with a matching card ("the CAT sat") and a non-matching
one ("dog"). -/
theorem search_cards_plain_query_correct_witness :
    (("cat" : String) ≠ "" ∧ ("cat" : String).toList.all plainChar = true) ∧
    (search_cards
        ⟨[], [⟨1, "Animals", none⟩],
          [⟨1, "the CAT sat", "x", 1, none⟩, ⟨2, "dog", "y", 1, none⟩], 1, 2, 3⟩
        "cat" 0 10).total_count
      = ((⟨[], [⟨1, "Animals", none⟩],
          [⟨1, "the CAT sat", "x", 1, none⟩, ⟨2, "dog", "y", 1, none⟩], 1, 2, 3⟩ : DB).cards.filter
          (cardMatchesSub "cat")).length ∧
    (∀ c ∈ (search_cards
        ⟨[], [⟨1, "Animals", none⟩],
          [⟨1, "the CAT sat", "x", 1, none⟩, ⟨2, "dog", "y", 1, none⟩], 1, 2, 3⟩
        "cat" 0 10).cards, cardMatchesSub "cat" c = true) := by
  refine ⟨⟨by decide, by decide⟩, ?_, ?_⟩
  · exact (search_cards_plain_query_correct
      ⟨[], [⟨1, "Animals", none⟩],
        [⟨1, "the CAT sat", "x", 1, none⟩, ⟨2, "dog", "y", 1, none⟩], 1, 2, 3⟩
      "cat" 0 10 (by decide) (by decide)).1
  · exact (search_cards_plain_query_correct
      ⟨[], [⟨1, "Animals", none⟩],
        [⟨1, "the CAT sat", "x", 1, none⟩, ⟨2, "dog", "y", 1, none⟩], 1, 2, 3⟩
      "cat" 0 10 (by decide) (by decide)).2.2.1
